import Mathlib

/-!
Verification development for the image-scoring subsystem of the GPTImage
repository (the `score-image` Next.js API route and its helper functions).

The TypeScript source is shallowly embedded as follows:

* JavaScript strings are Lean `String`s; the handful of string operations the
  code uses (`toLowerCase`, `trim`, `split(/\s+/)`, `startsWith`) are modelled
  over the character list `String.data` with the ASCII semantics the domain
  uses (prompts, captions and MIME types are ASCII in this code base).
* JavaScript numbers are modelled exactly: embedding vectors arrive as JSON
  decimal numbers, so vectors are `List ℚ`; values produced with `Math.sqrt`
  and division (cosine similarity, rounding) live in `ℝ`.
* Each outward network call (caption, embeddings, chat completion, multimodal
  vectorization) is abstracted as an oracle in a `ProviderEnv` record; a
  `none` outcome models a thrown/rejected provider call, exactly the cases the
  TypeScript `try`/`catch` blocks handle.  Configuration checks on environment
  variables become `Bool` fields.
* The route handler `POST` becomes the pure function `scoringPOST`; the
  provider calls a request triggers are modelled by `scoringCalls`.
-/

namespace GPTImage

/-! ## JavaScript string primitives (ASCII model) -/

/-- Whitespace test used by `trim` and `split(/\s+/)` (ASCII subset of `\s`). -/
def isWsChar (c : Char) : Bool := c = ' ' || c = '\t' || c = '\n' || c = '\r'

/-- Maximal runs of non-whitespace characters, accumulating the current run in
`cur` (reversed).  This is the behaviour of `split(/\s+/)` on a string without
leading or trailing whitespace. -/
def runsAux : List Char → List Char → List (List Char)
  | cur, [] => if cur = [] then [] else [cur.reverse]
  | cur, c :: cs =>
    if isWsChar c then
      if cur = [] then runsAux [] cs else cur.reverse :: runsAux [] cs
    else runsAux (c :: cur) cs

/-- Model of `text.toLowerCase().trim().split(/\s+/)`.  JavaScript
`"".split(/\s+/)` returns `[""]` (a one-element array holding the empty
string), and on a trimmed non-empty string `split(/\s+/)` returns the maximal
non-whitespace runs; tokens are represented as character lists. -/
def tokenize (s : String) : List (List Char) :=
  let lowered := s.data.map Char.toLower
  let trimmed := ((lowered.dropWhile isWsChar).reverse.dropWhile isWsChar).reverse
  if trimmed = [] then [[]] else runsAux [] trimmed

/-- Model of JavaScript `s.startsWith(p)`. -/
def jsStartsWith (s p : String) : Bool := p.data.isPrefixOf s.data

/-! ## calculateBasicTextSimilarity (route.ts lines 1227-1239) -/

/-- Embedding of `calculateBasicTextSimilarity`.  `words1`/`words2` are the
split results, `intersectionCount` counts the elements of the `words1` array
(with multiplicity) that belong to the set of `words2`, and `unionSize` is
`new Set([...words1, ...words2]).size`, i.e. the number of distinct tokens. -/
def calculateBasicTextSimilarity (text1 text2 : String) : ℚ :=
  let words1 := tokenize text1
  let words2 := tokenize text2
  let intersectionCount := (words1.filter (fun w => words2.contains w)).length
  let unionSize := ((words1 ++ words2).dedup).length
  if 0 < unionSize then (intersectionCount : ℚ) / (unionSize : ℚ) else 0

/-- Spec-side definition, following §4.2 of the specification verbatim: the
Jaccard index `|intersection| / |union|` over the two token *sets*
(deduplicated), 0 when the union is empty.  Used only to compare the
specified behaviour with the implemented `calculateBasicTextSimilarity`. -/
def jaccardSimilarity (text1 text2 : String) : ℚ :=
  let set1 := (tokenize text1).dedup
  let set2 := (tokenize text2).dedup
  let inter := set1.filter (fun w => set2.contains w)
  let union := (set1 ++ set2).dedup
  if 0 < union.length then (inter.length : ℚ) / (union.length : ℚ) else 0

/-! ## calculateCosineSimilarity (route.ts lines 1195-1222) -/

/-- The loop accumulator `dotProduct`. -/
def dotProductList (v1 v2 : List ℚ) : ℚ := (List.zipWith (fun a b => a * b) v1 v2).sum

/-- The loop accumulator `magnitude1`/`magnitude2` before `Math.sqrt`. -/
def sumOfSquares (v : List ℚ) : ℚ := (v.map (fun x => x * x)).sum

/-- The `Math.sqrt` of the accumulated sum of squares. -/
noncomputable def magnitude (v : List ℚ) : ℝ := Real.sqrt ((sumOfSquares v : ℚ) : ℝ)

/-- Embedding of `calculateCosineSimilarity`.  The source throws on a length
mismatch (modelled as `Except.error`), tests `magnitude1 === 0 ||
magnitude2 === 0` (stated here on the radicands, which is equivalent by
`magnitude_eq_zero_iff` below since a square root of a nonnegative number is
zero exactly when the number is), and otherwise returns the clamped quotient. -/
noncomputable def calculateCosineSimilarity (vector1 vector2 : List ℚ) : Except String ℝ :=
  if vector1.length ≠ vector2.length then .error "Vectors must have the same dimension"
  else if sumOfSquares vector1 = 0 ∨ sumOfSquares vector2 = 0 then .ok 0
  else .ok (max 0 (((dotProductList vector1 vector2 : ℚ) : ℝ) / (magnitude vector1 * magnitude vector2)))

/-! ## Rounding (Math.round(x * 100) / 100) -/

/-- JavaScript `Math.round`: floor of the argument plus one half. -/
noncomputable def jsMathRound (x : ℝ) : ℤ := ⌊x + 1 / 2⌋

/-- The `Math.round(x * 100) / 100` pattern used for every top-level score. -/
noncomputable def round2 (x : ℝ) : ℝ := ((jsMathRound (x * 100) : ℤ) : ℝ) / 100

/-! ## Provider environment and result records -/

/-- Token usage block of a chat completion (`prompt_tokens`,
`completion_tokens`, `total_tokens`). -/
structure TokenUsageModel where
  promptTokens : ℕ
  completionTokens : ℕ
  totalTokens : ℕ
  deriving DecidableEq

/-- Token usage block of an embeddings response (`prompt_tokens`,
`total_tokens`). -/
structure EmbeddingUsageModel where
  promptTokens : ℕ
  totalTokens : ℕ
  deriving DecidableEq

/-- Outcome of a successful GPT-4o description call. -/
structure GPT4oOutcomeModel where
  description : String
  usage : Option TokenUsageModel
  deriving DecidableEq

/-- Oracles abstracting every outward call made by the scoring route, plus the
configuration checks on environment variables.  A `none` outcome models a
thrown or rejected provider call (non-2xx response, malformed body, missing
caption text — every case the corresponding `catch` handles). -/
structure ProviderEnv where
  /-- Whether `AZURE_AI_VISION_ENDPOINT` and `AZURE_AI_VISION_API_KEY` are both set. -/
  visionConfigured : Bool
  /-- Outcome of the caption request: caption text and confidence. -/
  captionOutcome : Option (String × ℝ)
  /-- Whether `AZURE_OPENAI_ENDPOINT` and `AZURE_OPENAI_API_KEY` are both set. -/
  openAIConfigured : Bool
  /-- Outcome of `getTextEmbedding` (ada-002) per input text; the usage block
  of this call is only logged by the source, so it is not modelled. -/
  adaEmbed : String → Option (List ℚ)
  /-- Outcome of the `vectorizeImage` call. -/
  imageEmbed : Option (List ℚ)
  /-- Outcome of the `vectorizeText` call per input text. -/
  visionTextEmbed : String → Option (List ℚ)
  /-- The three GPT-4o environment variables are all set. -/
  gpt4oConfigured : Bool
  /-- Value of `AZURE_OPENAI_GPT4O_DEPLOYMENT_NAME`. -/
  gpt4oDeployment : String
  /-- Outcome of the GPT-4o chat completion. -/
  gpt4oOutcome : Option GPT4oOutcomeModel
  /-- Outcome of `getTextEmbeddingWithModel` per (model name, input text). -/
  modelEmbed : String → String → Option (List ℚ × Option EmbeddingUsageModel)
  /-- Outcome of `sharp(imageBuffer).metadata()`: `none` models a throw, and
  the width/height components may each be `undefined`. -/
  sharpMeta : Option (Option ℕ × Option ℕ)
  /-- Message of the error reaching the top-level catch. -/
  sharpErrorMessage : String
  /-- Elapsed milliseconds `Date.now() - startTime`. -/
  elapsedMs : ℕ

/-- Result record of `calculateAzureVisionSimilarity`. -/
structure AzureVisionResultModel where
  similarity : ℝ
  generatedCaption : String
  confidence : ℝ
  modelUsed : String

/-- Result record of `calculateMultimodalSimilarity`. -/
structure MultimodalResultModel where
  similarity : ℝ
  imageEmbeddingDimensions : ℕ
  textEmbeddingDimensions : ℕ
  modelUsed : String

/-- Result record of `calculateGPT4oDescriptionSimilarity`. -/
structure GPT4oResultModel where
  similarity : ℝ
  generatedDescription : String
  modelUsed : String
  tokenUsage : Option TokenUsageModel

/-- One entry of the embedding-model comparison. -/
structure EmbeddingModelResultModel where
  azureVisionSimilarity : ℝ
  gpt4oSimilarity : ℝ
  modelName : String
  dimensions : ℕ
  tokenUsage : Option (ℕ × ℕ)
  processingTime : ℕ

/-- The `embeddingComparison` object: exactly the three keys the source
declares in its return type. -/
structure EmbeddingComparisonModel where
  ada002 : EmbeddingModelResultModel
  embedding3Small : EmbeddingModelResultModel
  embedding3Large : EmbeddingModelResultModel

/-- The `scores` object of a successful response. -/
structure ScoresModel where
  azureVisionSimilarity : ℝ
  azureMultimodalSimilarity : Option ℝ
  gpt4oDescriptionSimilarity : Option ℝ

/-- The `metadata` object. -/
structure MetadataModel where
  imageWidth : ℕ
  imageHeight : ℕ
  promptLength : ℕ
  processingTime : ℕ
  tokenUsage : Option TokenUsageModel

/-- The `azureVisionDetails` object. -/
structure AzureVisionDetailsModel where
  generatedCaption : String
  confidence : ℝ
  modelUsed : String

/-- The `multimodalDetails` object. -/
structure MultimodalDetailsModel where
  imageEmbeddingDimensions : ℕ
  textEmbeddingDimensions : ℕ
  modelUsed : String

/-- The `gpt4oDetails` object. -/
structure GPT4oDetailsModel where
  generatedDescription : String
  modelUsed : String
  tokenUsage : Option TokenUsageModel

/-- The JSON body of a `ScoringResponse`, together with the HTTP status. -/
structure ScoringResponseModel where
  success : Bool
  status : ℕ
  scores : Option ScoresModel
  embeddingComparison : Option EmbeddingComparisonModel
  metadata : Option MetadataModel
  azureVisionDetails : Option AzureVisionDetailsModel
  multimodalDetails : Option MultimodalDetailsModel
  gpt4oDetails : Option GPT4oDetailsModel
  error : Option String

/-- The uploaded file, as far as the handler inspects it (`imageFile.type`);
the image bytes themselves only flow into provider calls, which the
`ProviderEnv` oracles abstract. -/
structure FileModel where
  mimeType : String

/-- The parsed multipart form: `formData.get` yields `null` for a missing
field, modelled as `none`. -/
structure RequestModel where
  image : Option FileModel
  prompt : Option String

/-! ## Branch functions (route.ts lines 688-1190) -/

/-- Embedding of `calculateSemanticSimilarity` (lines 1088-1120).  The `try`
covers the configuration check, the two parallel ada-002 embedding calls and
the cosine computation (which throws on a dimension mismatch); any failure
falls back to `calculateBasicTextSimilarity`. -/
noncomputable def calculateSemanticSimilarity (env : ProviderEnv) (text1 text2 : String) : ℝ :=
  if env.openAIConfigured then
    match env.adaEmbed text1, env.adaEmbed text2 with
    | some e1, some e2 =>
      match calculateCosineSimilarity e1 e2 with
      | .ok s => s
      | .error _ => ((calculateBasicTextSimilarity text1 text2 : ℚ) : ℝ)
    | _, _ => ((calculateBasicTextSimilarity text1 text2 : ℚ) : ℝ)
  else ((calculateBasicTextSimilarity text1 text2 : ℚ) : ℝ)

/-- Embedding of `calculateAzureVisionSimilarity` (lines 688-751).  A missing
configuration, a failed caption call, or an empty caption text (the source
tests `!captionResult.text`) all throw inside the `try` and land in the
`catch`, which returns the fixed fallback record with similarity `0.0`, empty
caption and zero confidence. -/
noncomputable def calculateAzureVisionSimilarity (env : ProviderEnv) (prompt : String) :
    AzureVisionResultModel :=
  if env.visionConfigured then
    match env.captionOutcome with
    | some (generatedCaption, confidence) =>
      if generatedCaption = "" then ⟨0, "", 0, "Azure-AI-Vision"⟩
      else ⟨calculateSemanticSimilarity env generatedCaption prompt,
            generatedCaption, confidence, "Azure-AI-Vision"⟩
    | none => ⟨0, "", 0, "Azure-AI-Vision"⟩
  else ⟨0, "", 0, "Azure-AI-Vision"⟩

/-- Embedding of `calculateMultimodalSimilarity` (lines 761-800).  Returns
`none` when the configuration is missing, when either vectorization call
fails, or when the cosine computation throws; otherwise the direct image-text
cosine similarity with the two embedding dimensionalities. -/
noncomputable def calculateMultimodalSimilarity (env : ProviderEnv) (prompt : String) :
    Option MultimodalResultModel :=
  if env.visionConfigured then
    match env.imageEmbed, env.visionTextEmbed prompt with
    | some imageEmbedding, some textEmbedding =>
      match calculateCosineSimilarity imageEmbedding textEmbedding with
      | .ok s => some ⟨s, imageEmbedding.length, textEmbedding.length, "Azure-Computer-Vision-Multimodal"⟩
      | .error _ => none
    | _, _ => none
  else none

/-- Embedding of `calculateGPT4oDescriptionSimilarity` (lines 811-904).
Returns `none` when the configuration is missing or the chat call fails;
otherwise compares the generated description against the prompt with
`calculateSemanticSimilarity`. -/
noncomputable def calculateGPT4oDescriptionSimilarity (env : ProviderEnv) (prompt : String) :
    Option GPT4oResultModel :=
  if env.gpt4oConfigured then
    match env.gpt4oOutcome with
    | some outcome =>
      some ⟨calculateSemanticSimilarity env outcome.description prompt,
            outcome.description, "GPT-4o-" ++ env.gpt4oDeployment, outcome.usage⟩
    | none => none
  else none

/-- The `promptTokens` contribution of one embedding result, `usage?.prompt_tokens || 0`. -/
def usagePromptTokens (e : List ℚ × Option EmbeddingUsageModel) : ℕ :=
  (e.2.map (fun u => u.promptTokens)).getD 0

/-- The `totalTokens` contribution of one embedding result, `usage?.total_tokens || 0`. -/
def usageTotalTokens (e : List ℚ × Option EmbeddingUsageModel) : ℕ :=
  (e.2.map (fun u => u.totalTokens)).getD 0

/-- The per-model `catch` fallback of the comparison loop: zero similarities,
no token usage, model name and dimensions kept. -/
def zeroModelEntry (name : String) (dims elapsed : ℕ) : EmbeddingModelResultModel :=
  ⟨0, 0, name, dims, none, elapsed⟩

/-- One iteration of the model loop in `calculateEmbeddingModelComparison`
(lines 944-988), for the model whose embedding oracle is `oracle`.  The
description is embedded only when it is truthy (non-empty); failure of any
fired embedding call, or a throwing cosine computation, lands in the
per-model `catch` and produces `zeroModelEntry`. -/
noncomputable def perModelEntry (oracle : String → Option (List ℚ × Option EmbeddingUsageModel))
    (name : String) (dims elapsed : ℕ) (azureCaption gpt4oDescription originalPrompt : String) :
    EmbeddingModelResultModel :=
  match oracle originalPrompt, oracle azureCaption with
  | some promptE, some captionE =>
    if gpt4oDescription = "" then
      match calculateCosineSimilarity promptE.1 captionE.1 with
      | .ok visionSim =>
        ⟨visionSim, 0, name, dims,
         some (usagePromptTokens promptE + usagePromptTokens captionE,
               usageTotalTokens promptE + usageTotalTokens captionE), elapsed⟩
      | .error _ => zeroModelEntry name dims elapsed
    else
      match oracle gpt4oDescription with
      | some gptE =>
        match calculateCosineSimilarity promptE.1 captionE.1 with
        | .ok visionSim =>
          match calculateCosineSimilarity promptE.1 gptE.1 with
          | .ok gptSim =>
            ⟨visionSim, gptSim, name, dims,
             some (usagePromptTokens promptE + usagePromptTokens captionE + usagePromptTokens gptE,
                   usageTotalTokens promptE + usageTotalTokens captionE + usageTotalTokens gptE),
             elapsed⟩
          | .error _ => zeroModelEntry name dims elapsed
        | .error _ => zeroModelEntry name dims elapsed
      | none => zeroModelEntry name dims elapsed
  | _, _ => zeroModelEntry name dims elapsed

/-- Embedding of `calculateEmbeddingModelComparison` (lines 915-996): `null`
without configuration, otherwise the loop over the three models of the
`embeddingModels` list, unrolled into the three keys of the result object. -/
noncomputable def calculateEmbeddingModelComparison (env : ProviderEnv)
    (azureCaption gpt4oDescription originalPrompt : String) : Option EmbeddingComparisonModel :=
  if env.openAIConfigured then
    some ⟨perModelEntry (env.modelEmbed "text-embedding-ada-002") "text-embedding-ada-002" 1536
            env.elapsedMs azureCaption gpt4oDescription originalPrompt,
          perModelEntry (env.modelEmbed "text-embedding-3-small") "text-embedding-3-small" 1536
            env.elapsedMs azureCaption gpt4oDescription originalPrompt,
          perModelEntry (env.modelEmbed "text-embedding-3-large") "text-embedding-3-large" 3072
            env.elapsedMs azureCaption gpt4oDescription originalPrompt⟩
  else none

/-! ## The POST handler (route.ts lines 522-649) -/

/-- The 400 response for `!imageFile || !prompt` (a missing field or an empty
prompt string, both falsy in JavaScript). -/
def missingFieldsResponse : ScoringResponseModel :=
  ⟨false, 400, none, none, none, none, none, none,
   some "Missing required fields: image and prompt"⟩

/-- The 400 response for a MIME type not starting with `image/`. -/
def invalidTypeResponse : ScoringResponseModel :=
  ⟨false, 400, none, none, none, none, none, none,
   some "Invalid file type. Please upload an image file."⟩

/-- The top-level catch (lines 634-648): generic failure with zeroed image
size and prompt length, elapsed time preserved. -/
def topLevelCatchResponse (env : ProviderEnv) : ScoringResponseModel :=
  ⟨false, 500, none, none,
   some ⟨0, 0, 0, env.elapsedMs, none⟩,
   none, none, none, some env.sharpErrorMessage⟩

/-- Embedding of the `POST` handler of the scoring route.  Validation happens
before any provider call; `sharp(imageBuffer).metadata()` is the one
statement whose failure escapes to the top-level catch (each branch function
catches its own errors); the success response rounds the three top-level
scores and the confidence to two decimals and estimates token usage from the
prompt length (`Math.ceil(prompt.length / 4)`). -/
noncomputable def scoringPOST (req : RequestModel) (env : ProviderEnv) : ScoringResponseModel :=
  match req.image, req.prompt with
  | some imageFile, some prompt =>
    if prompt = "" then missingFieldsResponse
    else if jsStartsWith imageFile.mimeType "image/" then
      match env.sharpMeta with
      | none => topLevelCatchResponse env
      | some (w, h) =>
        let azureVisionResult := calculateAzureVisionSimilarity env prompt
        let multimodalResult := calculateMultimodalSimilarity env prompt
        let gpt4oResult := calculateGPT4oDescriptionSimilarity env prompt
        let comparison := calculateEmbeddingModelComparison env
          azureVisionResult.generatedCaption
          ((gpt4oResult.map (fun g => g.generatedDescription)).getD "") prompt
        { success := true
          status := 200
          scores := some
            { azureVisionSimilarity := round2 azureVisionResult.similarity
              azureMultimodalSimilarity := multimodalResult.map (fun m => round2 m.similarity)
              gpt4oDescriptionSimilarity := gpt4oResult.map (fun g => round2 g.similarity) }
          embeddingComparison := comparison
          metadata := some
            { imageWidth := w.getD 0
              imageHeight := h.getD 0
              promptLength := prompt.length
              processingTime := env.elapsedMs
              tokenUsage := some ⟨(prompt.length + 3) / 4, 0, (prompt.length + 3) / 4⟩ }
          azureVisionDetails := some
            { generatedCaption := azureVisionResult.generatedCaption
              confidence := round2 azureVisionResult.confidence
              modelUsed := azureVisionResult.modelUsed }
          multimodalDetails := multimodalResult.map (fun m =>
            ⟨m.imageEmbeddingDimensions, m.textEmbeddingDimensions, m.modelUsed⟩)
          gpt4oDetails := gpt4oResult.map (fun g =>
            ⟨g.generatedDescription, g.modelUsed, g.tokenUsage⟩)
          error := none }
    else invalidTypeResponse
  | _, _ => missingFieldsResponse

/-! ## Provider-call log -/

/-- One outward network call of the scoring route. -/
inductive ProviderCall where
  | caption : ProviderCall
  | adaEmbedding : String → ProviderCall
  | imageVectorize : ProviderCall
  | textVectorize : String → ProviderCall
  | gpt4oChat : ProviderCall
  | modelEmbedding : String → String → ProviderCall
  deriving DecidableEq

/-- Calls fired by `calculateSemanticSimilarity`: the two ada-002 embedding
requests are launched together by `Promise.all` (both fire even if one
rejects); without configuration the function throws before any call. -/
def semanticSimilarityCalls (env : ProviderEnv) (text1 text2 : String) : List ProviderCall :=
  if env.openAIConfigured then [.adaEmbedding text1, .adaEmbedding text2] else []

/-- Calls fired by `calculateAzureVisionSimilarity`. -/
noncomputable def azureVisionCalls (env : ProviderEnv) (prompt : String) : List ProviderCall :=
  if env.visionConfigured then
    match env.captionOutcome with
    | some (generatedCaption, _) =>
      if generatedCaption = "" then [.caption]
      else .caption :: semanticSimilarityCalls env generatedCaption prompt
    | none => [.caption]
  else []

/-- Calls fired by `calculateMultimodalSimilarity` (both vectorizations are
launched together by `Promise.all`). -/
def multimodalCalls (env : ProviderEnv) (prompt : String) : List ProviderCall :=
  if env.visionConfigured then [.imageVectorize, .textVectorize prompt] else []

/-- Calls fired by `calculateGPT4oDescriptionSimilarity`. -/
def gpt4oCalls (env : ProviderEnv) (prompt : String) : List ProviderCall :=
  if env.gpt4oConfigured then
    match env.gpt4oOutcome with
    | some outcome => .gpt4oChat :: semanticSimilarityCalls env outcome.description prompt
    | none => [.gpt4oChat]
  else []

/-- Calls fired by one iteration of the comparison loop: prompt and caption
are always embedded, the description only when truthy. -/
def perModelCalls (name azureCaption gpt4oDescription originalPrompt : String) : List ProviderCall :=
  [.modelEmbedding name originalPrompt, .modelEmbedding name azureCaption]
    ++ (if gpt4oDescription = "" then [] else [.modelEmbedding name gpt4oDescription])

/-- Calls fired by `calculateEmbeddingModelComparison`. -/
def embeddingComparisonCalls (env : ProviderEnv)
    (azureCaption gpt4oDescription originalPrompt : String) : List ProviderCall :=
  if env.openAIConfigured then
    perModelCalls "text-embedding-ada-002" azureCaption gpt4oDescription originalPrompt
      ++ perModelCalls "text-embedding-3-small" azureCaption gpt4oDescription originalPrompt
      ++ perModelCalls "text-embedding-3-large" azureCaption gpt4oDescription originalPrompt
  else []

/-- All provider calls fired while handling a request: none before validation
passes and the image metadata is read, then the four branches in order. -/
noncomputable def scoringCalls (req : RequestModel) (env : ProviderEnv) : List ProviderCall :=
  match req.image, req.prompt with
  | some imageFile, some prompt =>
    if prompt = "" then []
    else if jsStartsWith imageFile.mimeType "image/" then
      match env.sharpMeta with
      | none => []
      | some _ =>
        azureVisionCalls env prompt ++ multimodalCalls env prompt ++ gpt4oCalls env prompt
          ++ embeddingComparisonCalls env
               (calculateAzureVisionSimilarity env prompt).generatedCaption
               (((calculateGPT4oDescriptionSimilarity env prompt).map
                  (fun g => g.generatedDescription)).getD "") prompt
    else []
  | _, _ => []

/-! ## Environment update and response view used by the isolation claims -/

/-- Replace only the two multimodal oracles of an environment, leaving every
other oracle and configuration flag unchanged. -/
def setMultimodalOracles (env : ProviderEnv) (ie : Option (List ℚ))
    (te : String → Option (List ℚ)) : ProviderEnv :=
  { env with imageEmbed := ie, visionTextEmbed := te }

/-- Every field of a scoring response except the two multimodal outputs
(`scores.azureMultimodalSimilarity` and `multimodalDetails`). -/
def nonMultimodalView (r : ScoringResponseModel) :
    Bool × ℕ × Option (ℝ × Option ℝ) × Option EmbeddingComparisonModel × Option MetadataModel
      × Option AzureVisionDetailsModel × Option GPT4oDetailsModel × Option String :=
  (r.success, r.status,
   r.scores.map (fun s => (s.azureVisionSimilarity, s.gpt4oDescriptionSimilarity)),
   r.embeddingComparison, r.metadata, r.azureVisionDetails, r.gpt4oDetails, r.error)

/-! ## Concrete requests and environments used by witnesses and counterexamples -/

/-- A well-formed request: PNG upload with the non-empty prompt "p". -/
def reqValid : RequestModel := ⟨some ⟨"image/png"⟩, some "p"⟩

/-- A minimal environment: nothing configured, image metadata readable. -/
noncomputable def envBase : ProviderEnv :=
  ⟨false, none, false, fun _ => none, none, fun _ => none,
   false, "gpt-4o", none, fun _ _ => none, some (some 2, some 2), "boom", 1⟩

/-- Environment with only the embedding-comparison configuration present and
every embedding call failing. -/
noncomputable def envC4 : ProviderEnv :=
  ⟨false, none, true, fun _ => none, none, fun _ => none,
   false, "gpt-4o", none, fun _ _ => none, some (some 2, some 2), "boom", 3⟩

/-- Environment whose image-metadata read throws, reaching the top-level
catch. -/
noncomputable def envCatch : ProviderEnv :=
  ⟨false, none, false, fun _ => none, none, fun _ => none,
   false, "gpt-4o", none, fun _ _ => none, none, "metadata failed", 9⟩

/-- Request used in the C1 counterexample: a valid PNG upload with prompt
"red mug". -/
def reqC1 : RequestModel := ⟨some ⟨"image/png"⟩, some "red mug"⟩

/-- Environment used in the C1 counterexample: the caption service succeeds
with caption "red red red mug", but the text-embedding service is not
configured, so the primary similarity falls back to token overlap. -/
noncomputable def envC1 : ProviderEnv :=
  ⟨true, some ("red red red mug", 9 / 10), false, fun _ => none, none, fun _ => none,
   false, "gpt-4o", none, fun _ _ => none, some (some 1024, some 1024), "boom", 12⟩

/-- Request used in the C5 counterexample: a valid PNG upload with prompt
"a dog". -/
def reqC5 : RequestModel := ⟨some ⟨"image/png"⟩, some "a dog"⟩

/-- Environment used in the C5 counterexample: captioning succeeds with
"a cat"; the ada-002 comparison oracle returns the vectors [3, 4] for the
prompt and [5, 12] for the caption (cosine 63/65, not a two-decimal value);
the ada-002 primary-path oracle and the other two comparison models fail. -/
noncomputable def envC5 : ProviderEnv :=
  ⟨true, some ("a cat", 1 / 2), true, fun _ => none, none, fun _ => none,
   false, "gpt-4o", none,
   fun name text =>
     if name = "text-embedding-ada-002" then
       if text = "a dog" then some ([3, 4], none)
       else if text = "a cat" then some ([5, 12], none)
       else none
     else none,
   some (some 8, some 8), "boom", 2⟩

/-- Request used in the C6 counterexample: a valid PNG upload whose prompt is
the non-empty whitespace string " ". -/
def reqC6 : RequestModel := ⟨some ⟨"image/png"⟩, some " "⟩

/-- Environment in which the caption call fails and nothing else is
configured. -/
noncomputable def envC6 : ProviderEnv :=
  ⟨true, none, false, fun _ => none, none, fun _ => none,
   false, "gpt-4o", none, fun _ _ => none, some (some 7, some 7), "boom", 4⟩

/-! ## Arithmetic helper lemmas -/

theorem sumOfSquares_nonneg (v : List ℚ) : 0 ≤ sumOfSquares v := by
  apply List.sum_nonneg
  intro x hx
  rcases List.mem_map.1 hx with ⟨y, _, rfl⟩
  exact mul_self_nonneg y

theorem magnitude_nonneg (v : List ℚ) : 0 ≤ magnitude v := Real.sqrt_nonneg _

theorem magnitude_eq_zero_iff (v : List ℚ) : magnitude v = 0 ↔ sumOfSquares v = 0 := by
  unfold magnitude
  rw [Real.sqrt_eq_zero']
  constructor
  · intro h
    have h2 : 0 ≤ (sumOfSquares v : ℝ) := by exact_mod_cast sumOfSquares_nonneg v
    exact_mod_cast le_antisymm h h2
  · intro h
    rw [h]
    norm_num

theorem dotProductList_eq_sum (a : List ℚ) : ∀ b : List ℚ,
    dotProductList a b = ∑ i ∈ Finset.range (min a.length b.length), a.getD i 0 * b.getD i 0 := by
  induction a with
  | nil => intro b; simp [dotProductList]
  | cons x xs ih =>
    intro b
    cases b with
    | nil => simp [dotProductList]
    | cons y ys =>
      have hmin : min (x :: xs).length (y :: ys).length = min xs.length ys.length + 1 := by
        simp [Nat.succ_min_succ]
      rw [hmin, Finset.sum_range_succ']
      simp only [List.getD_cons_succ, List.getD_cons_zero]
      have hdot : dotProductList (x :: xs) (y :: ys) = x * y + dotProductList xs ys := by
        simp [dotProductList]
      rw [hdot, ih ys]
      ring

theorem sumOfSquares_eq_sum (a : List ℚ) :
    sumOfSquares a = ∑ i ∈ Finset.range a.length, (a.getD i 0) ^ 2 := by
  have h1 : dotProductList a a = sumOfSquares a := by
    simp [dotProductList, sumOfSquares, List.zipWith_same]
  have h2 := dotProductList_eq_sum a a
  rw [min_self] at h2
  rw [← h1, h2]
  exact Finset.sum_congr rfl (fun i _ => (sq (a.getD i 0)).symm ▸ by ring)

theorem dotProductList_sq_le (a b : List ℚ) (h : a.length = b.length) :
    (dotProductList a b) ^ 2 ≤ sumOfSquares a * sumOfSquares b := by
  rw [dotProductList_eq_sum, sumOfSquares_eq_sum, sumOfSquares_eq_sum, h, min_self]
  exact Finset.sum_mul_sq_le_sq_mul_sq _ _ _

theorem dotProductList_comm (a b : List ℚ) : dotProductList a b = dotProductList b a := by
  unfold dotProductList
  rw [List.zipWith_comm_of_comm]
  exact mul_comm

/-! ## Rounding helper lemmas -/

theorem round2_eq_of (x : ℝ) (n : ℤ) (h1 : (n : ℝ) ≤ x * 100 + 1 / 2)
    (h2 : x * 100 + 1 / 2 < (n : ℝ) + 1) : round2 x = (n : ℝ) / 100 := by
  unfold round2 jsMathRound
  rw [Int.floor_eq_iff.mpr ⟨h1, by exact_mod_cast h2⟩]

theorem round2_zero : round2 (0 : ℝ) = 0 := by
  rw [round2_eq_of 0 0 (by norm_num) (by norm_num)]
  norm_num

theorem round2_one : round2 (1 : ℝ) = 1 := by
  rw [round2_eq_of 1 100 (by norm_num) (by norm_num)]
  norm_num

theorem round2_round2 (x : ℝ) : round2 (round2 x) = round2 x := by
  unfold round2 jsMathRound
  have h1 : (↑⌊x * 100 + 1 / 2⌋ : ℝ) / 100 * 100 + 1 / 2
      = (↑⌊x * 100 + 1 / 2⌋ : ℝ) + 1 / 2 := by
    field_simp
  rw [h1, Int.floor_int_add]
  have h2 : ⌊(1 / 2 : ℝ)⌋ = 0 := by
    rw [Int.floor_eq_iff]
    norm_num
  rw [h2]
  norm_num

/-! ## Evaluation helper lemmas -/

theorem calculateBasicTextSimilarity_eval (t1 t2 : String) (i u : ℕ)
    (hi : ((tokenize t1).filter (fun w => (tokenize t2).contains w)).length = i)
    (hu : (((tokenize t1) ++ (tokenize t2)).dedup).length = u) (hupos : 0 < u) :
    calculateBasicTextSimilarity t1 t2 = (i : ℚ) / (u : ℚ) := by
  simp only [calculateBasicTextSimilarity, hi, hu]
  rw [if_pos hupos]

/-! ## Claim C2: the cosine similarity contract -/

/-- C2: for every pair of numeric vectors, calculateCosineSimilarity fails
with the dimension-mismatch error when the lengths differ; returns 0 without
error when the lengths agree and either magnitude is exactly zero; and
otherwise returns max(0, dot / (|a|·|b|)), so negative raw cosine values are
reported as 0. -/
theorem cosineSimilarity_spec (a b : List ℚ) :
    (a.length ≠ b.length →
      calculateCosineSimilarity a b = .error "Vectors must have the same dimension")
    ∧ (a.length = b.length → magnitude a = 0 ∨ magnitude b = 0 →
      calculateCosineSimilarity a b = .ok 0)
    ∧ (a.length = b.length → magnitude a ≠ 0 → magnitude b ≠ 0 →
      calculateCosineSimilarity a b
        = .ok (max 0 (((dotProductList a b : ℚ) : ℝ) / (magnitude a * magnitude b)))) := by
  refine ⟨fun h => ?_, fun h hz => ?_, fun h h1 h2 => ?_⟩
  · unfold calculateCosineSimilarity
    rw [if_pos h]
  · unfold calculateCosineSimilarity
    rw [if_neg (not_not_intro h), if_pos]
    rcases hz with hz | hz
    · exact Or.inl ((magnitude_eq_zero_iff a).1 hz)
    · exact Or.inr ((magnitude_eq_zero_iff b).1 hz)
  · unfold calculateCosineSimilarity
    rw [if_neg (not_not_intro h), if_neg]
    rintro (hz | hz)
    · exact h1 ((magnitude_eq_zero_iff a).2 hz)
    · exact h2 ((magnitude_eq_zero_iff b).2 hz)

/-- C2 witness: the non-degenerate branch of the contract evaluated at the
concrete pair of one-element vectors [1] and [1]. -/
theorem cosineSimilarity_spec_witness :
    calculateCosineSimilarity [(1 : ℚ)] [(1 : ℚ)]
      = .ok (max 0 (((dotProductList [(1 : ℚ)] [(1 : ℚ)] : ℚ) : ℝ)
          / (magnitude [(1 : ℚ)] * magnitude [(1 : ℚ)]))) := by
  refine (cosineSimilarity_spec [(1 : ℚ)] [(1 : ℚ)]).2.2 rfl ?_ ?_ <;>
  · intro hmag
    have h0 := (magnitude_eq_zero_iff _).1 hmag
    simp [sumOfSquares] at h0

/-! ## Claim C9: symmetry of the cosine similarity -/

/-- C9: for every pair of equal-length numeric vectors,
calculateCosineSimilarity is symmetric in its two arguments. -/
theorem cosineSimilarity_symm (a b : List ℚ) (h : a.length = b.length) :
    calculateCosineSimilarity a b = calculateCosineSimilarity b a := by
  unfold calculateCosineSimilarity
  rw [if_neg (not_not_intro h), if_neg (not_not_intro h.symm), dotProductList_comm,
    mul_comm (magnitude a) (magnitude b)]
  by_cases hz : sumOfSquares a = 0 ∨ sumOfSquares b = 0
  · rw [if_pos hz, if_pos hz.symm]
  · rw [if_neg hz, if_neg (fun hc => hz hc.symm)]

/-- C9 witness: symmetry evaluated at the concrete pair [1, 2] and [3, 4]. -/
theorem cosineSimilarity_symm_witness :
    calculateCosineSimilarity [(1 : ℚ), 2] [(3 : ℚ), 4]
      = calculateCosineSimilarity [(3 : ℚ), 4] [(1 : ℚ), 2] :=
  cosineSimilarity_symm [(1 : ℚ), 2] [(3 : ℚ), 4] rfl

/-! ## Claim C1: range of the similarity values -/

/-- Helper evaluation: the cosine similarity of the one-element vectors [1]
and [1] is exactly 1. -/
theorem cosineSimilarity_ones : calculateCosineSimilarity [(1 : ℚ)] [(1 : ℚ)] = .ok 1 := by
  unfold calculateCosineSimilarity
  rw [if_neg (by norm_num), if_neg (by norm_num [sumOfSquares])]
  have hd : dotProductList [(1 : ℚ)] [(1 : ℚ)] = 1 := by norm_num [dotProductList]
  have hm : magnitude [(1 : ℚ)] = 1 := by
    unfold magnitude
    norm_num [sumOfSquares, Real.sqrt_one]
  rw [hd, hm]
  norm_num

/-- C1 (amended): every value calculateCosineSimilarity successfully returns
lies in [0, 1] (clamping plus the Cauchy-Schwarz inequality), and the
token-overlap fallback is nonnegative — but, as
`response_similarity_above_one` shows, the fallback can exceed 1, so the
original claim fails for fallback-produced response values. -/
theorem similarity_values_range :
    (∀ (a b : List ℚ) (r : ℝ), calculateCosineSimilarity a b = .ok r → 0 ≤ r ∧ r ≤ 1)
    ∧ (∀ t1 t2 : String, 0 ≤ calculateBasicTextSimilarity t1 t2) := by
  constructor
  · intro a b r h
    unfold calculateCosineSimilarity at h
    by_cases hlen : a.length ≠ b.length
    · rw [if_pos hlen] at h
      exact absurd h (by simp)
    · rw [if_neg hlen] at h
      push_neg at hlen
      by_cases hz : sumOfSquares a = 0 ∨ sumOfSquares b = 0
      · rw [if_pos hz] at h
        obtain rfl : (0 : ℝ) = r := Except.ok.inj h
        norm_num
      · rw [if_neg hz] at h
        obtain rfl : max 0 (((dotProductList a b : ℚ) : ℝ) / (magnitude a * magnitude b)) = r :=
          Except.ok.inj h
        push_neg at hz
        have hs1 : 0 < sumOfSquares a := (sumOfSquares_nonneg a).lt_of_ne (Ne.symm hz.1)
        have hs2 : 0 < sumOfSquares b := (sumOfSquares_nonneg b).lt_of_ne (Ne.symm hz.2)
        have hm1 : 0 < magnitude a := Real.sqrt_pos.2 (by exact_mod_cast hs1)
        have hm2 : 0 < magnitude b := Real.sqrt_pos.2 (by exact_mod_cast hs2)
        refine ⟨le_max_left _ _, max_le (by norm_num) ?_⟩
        rw [div_le_one (mul_pos hm1 hm2)]
        have hcs : ((dotProductList a b : ℚ) : ℝ) ^ 2
            ≤ ((sumOfSquares a : ℚ) : ℝ) * ((sumOfSquares b : ℚ) : ℝ) := by
          exact_mod_cast dotProductList_sq_le a b hlen
        calc ((dotProductList a b : ℚ) : ℝ)
            ≤ |((dotProductList a b : ℚ) : ℝ)| := le_abs_self _
          _ = Real.sqrt (((dotProductList a b : ℚ) : ℝ) ^ 2) := (Real.sqrt_sq_eq_abs _).symm
          _ ≤ Real.sqrt (((sumOfSquares a : ℚ) : ℝ) * ((sumOfSquares b : ℚ) : ℝ)) :=
              Real.sqrt_le_sqrt hcs
          _ = magnitude a * magnitude b := by
              unfold magnitude
              rw [Real.sqrt_mul (by exact_mod_cast hs1.le)]
  · intro t1 t2
    simp only [calculateBasicTextSimilarity]
    split
    · positivity
    · exact le_refl 0

/-- C1 witness: the range bound applied to the concrete cosine value 1
produced by the vectors [1] and [1]. -/
theorem similarity_values_range_witness : 0 ≤ (1 : ℝ) ∧ (1 : ℝ) ≤ 1 :=
  similarity_values_range.1 [(1 : ℚ)] [(1 : ℚ)] 1 cosineSimilarity_ones

/-- C1 (counterexample): a successful scoring response whose primary
similarity — produced by the token-overlap fallback on caption
"red red red mug" versus prompt "red mug" — equals 2, which lies outside
[0, 1]. -/
theorem response_similarity_above_one :
    (scoringPOST reqC1 envC1).success = true
    ∧ ((scoringPOST reqC1 envC1).scores).map (fun s => s.azureVisionSimilarity) = some 2
    ∧ ¬ ((2 : ℝ) ≤ 1) := by
  have hb : calculateBasicTextSimilarity "red red red mug" "red mug" = 2 := by
    rw [calculateBasicTextSimilarity_eval "red red red mug" "red mug" 4 2 (by decide) (by decide)
      (by norm_num)]
    norm_num
  have hscores : (scoringPOST reqC1 envC1).scores = some
      ⟨round2 ((calculateBasicTextSimilarity "red red red mug" "red mug" : ℚ) : ℝ), none, none⟩ :=
    rfl
  refine ⟨rfl, ?_, by norm_num⟩
  rw [hscores, hb]
  have h2 : ((2 : ℚ) : ℝ) = (2 : ℝ) := by norm_num
  rw [Option.map_some']
  have hr : round2 ((2 : ℚ) : ℝ) = 2 := by
    rw [h2, round2_eq_of 2 200 (by norm_num) (by norm_num)]
    norm_num
  simp only [hr]

/-! ## Claim C3: the token-overlap fallback versus the Jaccard index -/

/-- C3 (counterexample): on two empty strings the implemented fallback
returns 1, not the 0 the claim states, because JavaScript
`"".split(/\s+/)` yields the one-element array [""], so both token sets are
{""} and the union is not empty. -/
theorem basicTextSimilarity_empty_not_zero :
    calculateBasicTextSimilarity "" "" = 1 ∧ (1 : ℚ) ≠ 0 := by
  constructor
  · rw [calculateBasicTextSimilarity_eval "" "" 1 1 (by decide) (by decide) (by norm_num)]
    norm_num
  · norm_num

/-- C3 (amended): whenever the first text has no duplicate tokens, the
implemented fallback coincides with the Jaccard index over the two token
sets (the spec-side `jaccardSimilarity`); with duplicates in the first text
the numerator counts with multiplicity, and for empty input both token lists
are the one-element list of the empty token. -/
theorem basicTextSimilarity_eq_jaccard (t1 t2 : String) (h : (tokenize t1).Nodup) :
    calculateBasicTextSimilarity t1 t2 = jaccardSimilarity t1 t2 := by
  have hcont : ∀ (l : List (List Char)) (w : List Char), (l.dedup).contains w = l.contains w := by
    intro l w
    show List.elem w l.dedup = List.elem w l
    rw [List.elem_eq_mem, List.elem_eq_mem]
    simp [List.mem_dedup]
  have hnum : (tokenize t1).filter (fun w => (tokenize t2).contains w)
      = ((tokenize t1).dedup).filter (fun w => ((tokenize t2).dedup).contains w) := by
    rw [List.dedup_eq_self.2 h]
    exact (List.filter_congr (fun w _ => hcont (tokenize t2) w)).symm
  have hde1 : ((tokenize t1).dedup).toFinset = (tokenize t1).toFinset :=
    List.toFinset.ext fun x => List.mem_dedup
  have hde2 : ((tokenize t2).dedup).toFinset = (tokenize t2).toFinset :=
    List.toFinset.ext fun x => List.mem_dedup
  have hulen : (((tokenize t1).dedup ++ (tokenize t2).dedup).dedup).length
      = ((tokenize t1 ++ tokenize t2).dedup).length := by
    rw [← List.card_toFinset, ← List.card_toFinset, List.toFinset_append, List.toFinset_append,
      hde1, hde2]
  simp only [calculateBasicTextSimilarity, jaccardSimilarity]
  rw [hnum, hulen]

/-- C3 witness: the amended correspondence evaluated at the concrete
duplicate-free pair ("a b", "b c"). -/
theorem basicTextSimilarity_eq_jaccard_witness :
    calculateBasicTextSimilarity "a b" "b c" = jaccardSimilarity "a b" "b c" :=
  basicTextSimilarity_eq_jaccard "a b" "b c" (by decide)

/-! ## Claim C4: shape and failure isolation of the embedding comparison -/

/-- C4: whenever the embedding comparison is computed, it is a record with
exactly three entries, one per embedding model, each carrying its model name
and dimensions; each entry is determined only by the embedding oracle of its own model
and a failing embedding call degrades exactly the entry of that model to
the zero-similarity fallback entry (still present), leaving the defining
expressions of the other entries untouched. -/
theorem embeddingComparison_three_entries (env : ProviderEnv) (cap desc prompt : String)
    (hconf : env.openAIConfigured = true) :
    calculateEmbeddingModelComparison env cap desc prompt = some
      ⟨perModelEntry (env.modelEmbed "text-embedding-ada-002") "text-embedding-ada-002" 1536
         env.elapsedMs cap desc prompt,
       perModelEntry (env.modelEmbed "text-embedding-3-small") "text-embedding-3-small" 1536
         env.elapsedMs cap desc prompt,
       perModelEntry (env.modelEmbed "text-embedding-3-large") "text-embedding-3-large" 3072
         env.elapsedMs cap desc prompt⟩
    ∧ (∀ (oracle : String → Option (List ℚ × Option EmbeddingUsageModel)) name dims elapsed,
        oracle prompt = none ∨ oracle cap = none ∨ (desc ≠ "" ∧ oracle desc = none) →
        perModelEntry oracle name dims elapsed cap desc prompt = zeroModelEntry name dims elapsed)
    ∧ (∀ (oracle : String → Option (List ℚ × Option EmbeddingUsageModel)) name dims elapsed,
        (perModelEntry oracle name dims elapsed cap desc prompt).modelName = name
        ∧ (perModelEntry oracle name dims elapsed cap desc prompt).dimensions = dims) := by
  refine ⟨?_, ?_, ?_⟩
  · unfold calculateEmbeddingModelComparison
    rw [if_pos hconf]
  · intro oracle name dims elapsed hfail
    rcases hfail with hf | hf | ⟨hd, hf⟩
    · rcases hc : oracle cap with _ | ce <;> simp [perModelEntry, hf, hc]
    · rcases hp : oracle prompt with _ | pe <;> simp [perModelEntry, hf, hp]
    · rcases hp : oracle prompt with _ | pe <;> rcases hc : oracle cap with _ | ce <;>
        simp [perModelEntry, hp, hc, hd, hf]
  · intro oracle name dims elapsed
    constructor <;>
    · unfold perModelEntry zeroModelEntry
      repeat' split
      all_goals rfl

/-- C4 witness: with only the comparison configuration present and every
embedding call failing, the comparison is still computed with its three
per-model entries. -/
theorem embeddingComparison_three_entries_witness :
    calculateEmbeddingModelComparison envC4 "a cat" "" "a dog" = some
      ⟨perModelEntry (envC4.modelEmbed "text-embedding-ada-002") "text-embedding-ada-002" 1536
         envC4.elapsedMs "a cat" "" "a dog",
       perModelEntry (envC4.modelEmbed "text-embedding-3-small") "text-embedding-3-small" 1536
         envC4.elapsedMs "a cat" "" "a dog",
       perModelEntry (envC4.modelEmbed "text-embedding-3-large") "text-embedding-3-large" 3072
         envC4.elapsedMs "a cat" "" "a dog"⟩ :=
  (embeddingComparison_three_entries envC4 "a cat" "" "a dog" rfl).1

/-! ## Claim C5: two-decimal rounding of returned similarities -/

/-- Helper evaluation: the cosine similarity of [3, 4] and [5, 12] is
exactly 63/65. -/
theorem cosineSimilarity_3_4_5_12 :
    calculateCosineSimilarity [(3 : ℚ), 4] [(5 : ℚ), 12] = .ok ((63 : ℝ) / 65) := by
  unfold calculateCosineSimilarity
  rw [if_neg (by norm_num), if_neg (by norm_num [sumOfSquares])]
  have hd : dotProductList [(3 : ℚ), 4] [(5 : ℚ), 12] = 63 := by norm_num [dotProductList]
  have hm1 : magnitude [(3 : ℚ), 4] = 5 := by
    unfold magnitude
    have h : ((sumOfSquares [(3 : ℚ), 4] : ℚ) : ℝ) = 5 ^ 2 := by norm_num [sumOfSquares]
    rw [h, Real.sqrt_sq (by norm_num)]
  have hm2 : magnitude [(5 : ℚ), 12] = 13 := by
    unfold magnitude
    have h : ((sumOfSquares [(5 : ℚ), 12] : ℚ) : ℝ) = 13 ^ 2 := by norm_num [sumOfSquares]
    rw [h, Real.sqrt_sq (by norm_num)]
  rw [hd, hm1, hm2]
  congr 1
  rw [max_eq_right (by norm_num)]
  norm_num

/-- C5 (counterexample): a successful scoring response whose ada-002
comparison entry carries the raw cosine value 63/65, which is not equal to
its own two-decimal rounding — the comparison entries are returned at full
precision, contradicting the claim that every returned similarity is rounded
to 2 decimal places. -/
theorem embeddingComparison_unrounded :
    (scoringPOST reqC5 envC5).success = true
    ∧ ((scoringPOST reqC5 envC5).embeddingComparison).map
        (fun r => r.ada002.azureVisionSimilarity) = some ((63 : ℝ) / 65)
    ∧ round2 ((63 : ℝ) / 65) ≠ (63 : ℝ) / 65 := by
  have h1 : envC5.modelEmbed "text-embedding-ada-002" "a dog" = some ([(3 : ℚ), 4], none) := rfl
  have h2 : envC5.modelEmbed "text-embedding-ada-002" "a cat" = some ([(5 : ℚ), 12], none) := rfl
  have hentry : perModelEntry (envC5.modelEmbed "text-embedding-ada-002")
      "text-embedding-ada-002" 1536 envC5.elapsedMs "a cat" "" "a dog"
      = ⟨(63 : ℝ) / 65, 0, "text-embedding-ada-002", 1536, some (0, 0), envC5.elapsedMs⟩ := by
    unfold perModelEntry
    rw [h1, h2]
    simp [cosineSimilarity_3_4_5_12, usagePromptTokens, usageTotalTokens]
  have hcomp : (scoringPOST reqC5 envC5).embeddingComparison = some
      ⟨perModelEntry (envC5.modelEmbed "text-embedding-ada-002") "text-embedding-ada-002" 1536
         envC5.elapsedMs "a cat" "" "a dog",
       perModelEntry (envC5.modelEmbed "text-embedding-3-small") "text-embedding-3-small" 1536
         envC5.elapsedMs "a cat" "" "a dog",
       perModelEntry (envC5.modelEmbed "text-embedding-3-large") "text-embedding-3-large" 3072
         envC5.elapsedMs "a cat" "" "a dog"⟩ := rfl
  refine ⟨rfl, ?_, ?_⟩
  · rw [hcomp, Option.map_some']
    simp only [hentry]
  · rw [round2_eq_of ((63 : ℝ) / 65) 97 (by norm_num) (by norm_num)]
    norm_num

/-- C5 (amended): in every successful scoring response the three top-level
score fields and the reported caption confidence are two-decimal values
(fixed points of round2); the similarity fields inside the comparison
entries, by contrast, keep full precision (see
`embeddingComparison_unrounded`). -/
theorem success_scores_two_decimal (req : RequestModel) (env : ProviderEnv) (s : ScoresModel)
    (hs : (scoringPOST req env).scores = some s) :
    round2 s.azureVisionSimilarity = s.azureVisionSimilarity
    ∧ (∀ x, s.azureMultimodalSimilarity = some x → round2 x = x)
    ∧ (∀ x, s.gpt4oDescriptionSimilarity = some x → round2 x = x)
    ∧ (∀ d, (scoringPOST req env).azureVisionDetails = some d →
        round2 d.confidence = d.confidence) := by
  rcases req with ⟨ri, rp⟩
  cases ri with
  | none => simp [scoringPOST, missingFieldsResponse] at hs
  | some f =>
    cases rp with
    | none => simp [scoringPOST, missingFieldsResponse] at hs
    | some prompt =>
      by_cases hp : prompt = ""
      · simp [scoringPOST, hp, missingFieldsResponse] at hs
      · cases hm : jsStartsWith f.mimeType "image/" with
        | false => simp [scoringPOST, hp, hm, invalidTypeResponse] at hs
        | true =>
          cases hsm : env.sharpMeta with
          | none => simp [scoringPOST, hp, hm, hsm, topLevelCatchResponse] at hs
          | some wh =>
            obtain ⟨w, h⟩ := wh
            simp only [scoringPOST, hp, hm, hsm, if_false, if_true] at hs ⊢
            rw [Option.some_inj] at hs
            subst hs
            refine ⟨round2_round2 _, ?_, ?_, ?_⟩
            · intro x hx
              obtain ⟨m, _, rfl⟩ := Option.map_eq_some'.1 hx
              exact round2_round2 _
            · intro x hx
              obtain ⟨g, _, rfl⟩ := Option.map_eq_some'.1 hx
              exact round2_round2 _
            · intro d hd
              rw [Option.some_inj] at hd
              subst hd
              exact round2_round2 _

/-- C5 witness: the rounding invariant applied to the concrete minimal
environment, whose primary score is round2 0. -/
theorem success_scores_two_decimal_witness :
    round2 (round2 (0 : ℝ)) = round2 (0 : ℝ) :=
  (success_scores_two_decimal reqValid envBase ⟨round2 0, none, none⟩ rfl).1

/-! ## Claim C6: caption failure is best-effort -/

/-- C6 (amended): on a valid request whose caption call fails, the response
still succeeds, the caption details report an empty caption and zero
confidence, and the primary similarity is the fixed zero of the caption
fallback record (the token-overlap fallback is not involved on this path; it
applies only when the text-embedding call fails after a successful caption,
see `caption_failure_not_fallback`). -/
theorem caption_failure_best_effort (req : RequestModel) (env : ProviderEnv)
    (f : FileModel) (prompt : String) (wh : Option ℕ × Option ℕ)
    (himg : req.image = some f) (hp : req.prompt = some prompt) (hpne : prompt ≠ "")
    (hmime : jsStartsWith f.mimeType "image/" = true)
    (hsharp : env.sharpMeta = some wh)
    (hvc : env.visionConfigured = true) (hcap : env.captionOutcome = none) :
    (scoringPOST req env).success = true
    ∧ (scoringPOST req env).azureVisionDetails = some ⟨"", 0, "Azure-AI-Vision"⟩
    ∧ ((scoringPOST req env).scores).map (fun s => s.azureVisionSimilarity) = some 0 := by
  have havr : calculateAzureVisionSimilarity env prompt = ⟨0, "", 0, "Azure-AI-Vision"⟩ := by
    simp [calculateAzureVisionSimilarity, hvc, hcap]
  obtain ⟨w, h⟩ := wh
  rcases req with ⟨ri, rp⟩
  subst himg
  subst hp
  simp only [scoringPOST, if_neg hpne, hmime, if_true, hsharp, havr]
  refine ⟨?_, ?_, ?_⟩ <;> simp [round2_zero]

/-- C6 witness: the best-effort behaviour at the concrete request `reqValid`
and the concrete environment `envC6` whose caption call fails. -/
theorem caption_failure_best_effort_witness :
    (scoringPOST reqValid envC6).success = true
    ∧ (scoringPOST reqValid envC6).azureVisionDetails = some ⟨"", 0, "Azure-AI-Vision"⟩
    ∧ ((scoringPOST reqValid envC6).scores).map (fun s => s.azureVisionSimilarity) = some 0 :=
  caption_failure_best_effort reqValid envC6 ⟨"image/png"⟩ "p" (some 7, some 7)
    rfl rfl (by decide) (by decide) rfl rfl rfl

/-- C6 (counterexample): on the valid whitespace-only prompt " " with a
failing caption call, the primary similarity of the response is 0, while the
token-overlap fallback on the substituted empty caption would give 1 — so
the primary similarity is not computed via the token-overlap fallback, the
request simply proceeds with a hard-coded zero. -/
theorem caption_failure_not_fallback :
    (scoringPOST reqC6 envC6).success = true
    ∧ ((scoringPOST reqC6 envC6).scores).map (fun s => s.azureVisionSimilarity) = some 0
    ∧ round2 ((calculateBasicTextSimilarity "" " " : ℚ) : ℝ) = 1
    ∧ (0 : ℝ) ≠ 1 := by
  have hscores : (scoringPOST reqC6 envC6).scores = some ⟨round2 0, none, none⟩ := rfl
  refine ⟨rfl, ?_, ?_, by norm_num⟩
  · rw [hscores, Option.map_some']
    simp [round2_zero]
  · have hb : calculateBasicTextSimilarity "" " " = 1 := by
      rw [calculateBasicTextSimilarity_eval "" " " 1 1 (by decide) (by decide) (by norm_num)]
      norm_num
    rw [hb]
    have h1 : ((1 : ℚ) : ℝ) = (1 : ℝ) := by norm_num
    rw [h1, round2_one]

/-! ## Claim C7: validation errors are rejected before any provider call -/

/-- C7: a request with a missing image, a missing prompt, or a MIME type not
starting with "image/" is rejected with success false and one of the two
descriptive validation messages, and no provider call is made. -/
theorem validation_no_provider_calls (req : RequestModel) (env : ProviderEnv)
    (h : req.image = none ∨ req.prompt = none
      ∨ ∃ f, req.image = some f ∧ jsStartsWith f.mimeType "image/" = false) :
    (scoringPOST req env).success = false
    ∧ ((scoringPOST req env).error = some "Missing required fields: image and prompt"
      ∨ (scoringPOST req env).error = some "Invalid file type. Please upload an image file.")
    ∧ scoringCalls req env = [] := by
  rcases req with ⟨ri, rp⟩
  rcases h with h | h | ⟨f, hf, hmime⟩
  · subst h
    cases rp <;> exact ⟨rfl, Or.inl rfl, rfl⟩
  · subst h
    cases ri <;> exact ⟨rfl, Or.inl rfl, rfl⟩
  · subst hf
    cases rp with
    | none => exact ⟨rfl, Or.inl rfl, rfl⟩
    | some prompt =>
      by_cases hp : prompt = ""
      · subst hp
        exact ⟨rfl, Or.inl rfl, rfl⟩
      · refine ⟨?_, Or.inr ?_, ?_⟩ <;>
          simp [scoringPOST, scoringCalls, hp, hmime, invalidTypeResponse]

/-- C7 witness: a request missing its image field is rejected with no
provider calls. -/
theorem validation_no_provider_calls_witness :
    (scoringPOST ⟨none, some "p"⟩ envBase).success = false
    ∧ ((scoringPOST ⟨none, some "p"⟩ envBase).error
        = some "Missing required fields: image and prompt"
      ∨ (scoringPOST ⟨none, some "p"⟩ envBase).error
        = some "Invalid file type. Please upload an image file.")
    ∧ scoringCalls ⟨none, some "p"⟩ envBase = [] :=
  validation_no_provider_calls ⟨none, some "p"⟩ envBase (Or.inl rfl)

/-! ## Claim C8: multimodal failure is isolated -/

/-- C8: when either multimodal vectorization call fails, the multimodal
similarity and details are entirely absent from the response, and every
other response field is unaffected by the multimodal oracles. -/
theorem multimodal_failure_isolated (req : RequestModel) (env : ProviderEnv) (prompt : String)
    (hp : req.prompt = some prompt)
    (hfail : env.imageEmbed = none ∨ env.visionTextEmbed prompt = none) :
    ((scoringPOST req env).multimodalDetails = none
      ∧ ∀ s, (scoringPOST req env).scores = some s → s.azureMultimodalSimilarity = none)
    ∧ ∀ (ie : Option (List ℚ)) (te : String → Option (List ℚ)),
        nonMultimodalView (scoringPOST req (setMultimodalOracles env ie te))
          = nonMultimodalView (scoringPOST req env) := by
  have hmm : calculateMultimodalSimilarity env prompt = none := by
    cases hv : env.visionConfigured with
    | false => simp [calculateMultimodalSimilarity, hv]
    | true =>
      rcases hfail with hf | hf
      · rcases ht : env.visionTextEmbed prompt with _ | te <;>
          simp [calculateMultimodalSimilarity, hv, hf, ht]
      · rcases hi : env.imageEmbed with _ | ie <;>
          simp [calculateMultimodalSimilarity, hv, hf, hi]
  rcases req with ⟨ri, rp⟩
  subst hp
  constructor
  · cases ri with
    | none => exact ⟨rfl, fun s hs => by simp [scoringPOST, missingFieldsResponse] at hs⟩
    | some f =>
      by_cases hpe : prompt = ""
      · subst hpe
        exact ⟨rfl, fun s hs => by simp [scoringPOST, missingFieldsResponse] at hs⟩
      · cases hm : jsStartsWith f.mimeType "image/" with
        | false =>
          constructor
          · simp [scoringPOST, hpe, hm, invalidTypeResponse]
          · intro s hs
            simp [scoringPOST, hpe, hm, invalidTypeResponse] at hs
        | true =>
          cases hsm : env.sharpMeta with
          | none =>
            constructor
            · simp [scoringPOST, hpe, hm, hsm, topLevelCatchResponse]
            · intro s hs
              simp [scoringPOST, hpe, hm, hsm, topLevelCatchResponse] at hs
          | some wh =>
            obtain ⟨w, h⟩ := wh
            constructor
            · simp [scoringPOST, hpe, hm, hsm, hmm]
            · intro s hs
              simp only [scoringPOST, if_neg hpe, hm, if_true, hsm, hmm] at hs
              rw [Option.some_inj] at hs
              subst hs
              simp
  · intro ie te
    cases ri with
    | none => rfl
    | some f =>
      by_cases hpe : prompt = ""
      · subst hpe
        rfl
      · have hsharp : (setMultimodalOracles env ie te).sharpMeta = env.sharpMeta := rfl
        cases hm : jsStartsWith f.mimeType "image/" with
        | false => simp [scoringPOST, hpe, hm]
        | true =>
          cases hsm : env.sharpMeta with
          | none =>
            simp [scoringPOST, hpe, hm, hsm, hsharp, setMultimodalOracles,
              topLevelCatchResponse, nonMultimodalView]
          | some wh =>
            obtain ⟨w, h⟩ := wh
            simp only [scoringPOST, if_neg hpe, hm, if_true, hsm, hsharp]
            rfl

/-- C8 witness: multimodal absence and isolation at the concrete request
`reqValid` and the minimal environment, whose image vectorization fails. -/
theorem multimodal_failure_isolated_witness :
    (scoringPOST reqValid envBase).multimodalDetails = none :=
  (multimodal_failure_isolated reqValid envBase "p" rfl (Or.inl rfl)).1.1

/-! ## Claim C10: metadata of the top-level failure response -/

/-- C10: every request that reaches the top-level catch (in this model: a
validated request whose image-metadata read throws) yields a failure
response whose metadata reports a 0×0 image size and prompt length 0 —
whatever the actual prompt was — while still recording the elapsed time. -/
theorem top_level_catch_zeroed_metadata (req : RequestModel) (env : ProviderEnv)
    (f : FileModel) (prompt : String)
    (himg : req.image = some f) (hp : req.prompt = some prompt) (hpne : prompt ≠ "")
    (hmime : jsStartsWith f.mimeType "image/" = true)
    (hsharp : env.sharpMeta = none) :
    (scoringPOST req env).success = false
    ∧ (scoringPOST req env).metadata = some ⟨0, 0, 0, env.elapsedMs, none⟩
    ∧ (scoringPOST req env).status = 500 := by
  rcases req with ⟨ri, rp⟩
  subst himg
  subst hp
  simp [scoringPOST, hpne, hmime, hsharp, topLevelCatchResponse]

/-- C10 witness: the zeroed failure metadata at the concrete request
`reqValid` (prompt "p" of length 1) and the environment `envCatch`. -/
theorem top_level_catch_zeroed_metadata_witness :
    (scoringPOST reqValid envCatch).metadata = some ⟨0, 0, 0, envCatch.elapsedMs, none⟩ :=
  (top_level_catch_zeroed_metadata reqValid envCatch ⟨"image/png"⟩ "p"
    rfl rfl (by decide) (by decide) rfl).2.1

end GPTImage
